import Mathlib

/-!
Verification of the centralized access-token refresh cache of the
wechat-service repository, shallowly embedded from the Go source
(package token, file modelled from its token server, together with the
configuration package).  Times are unix seconds as Int, machine state is
explicit, and the issuer HTTP exchange is an explicit outcome value.
-/

namespace config

/-- WeChat section of the configuration (fields used by validation). -/
structure WeChatConfig where
  appID : String
  appSecret : String
  token : String
  encodingAESKey : String
  appKey : String
deriving DecidableEq

/-- Server section of the configuration (fields used by validation). -/
structure ServerConfig where
  host : String
  port : Int
  readTimeout : Int
  writeTimeout : Int
  maxHeaderBytes : Int
  env : String
deriving DecidableEq

/-- AccessToken section of the configuration, as in the source:
cache_duration (seconds before expiry at which the token is refreshed),
refresh_interval, and the three feature switches. -/
structure AccessTokenConfig where
  cacheDuration : Int
  refreshInterval : Int
  enableProactive : Bool
  enableReactive : Bool
  useStableAPI : Bool
deriving DecidableEq

/-- The configuration record, restricted to the sections the verified
claims touch. -/
structure Config where
  server : ServerConfig
  weChat : WeChatConfig
  accessToken : AccessTokenConfig
deriving DecidableEq

/-- Validate, embedded from the source: it rejects an empty app_id,
app_secret or token, and a port outside 1..65535; it checks nothing
else. -/
def Config.Validate (c : Config) : Option String :=
  if c.weChat.appID == "" then some "app_id is required"
  else if c.weChat.appSecret == "" then some "app_secret is required"
  else if c.weChat.token == "" then some "token is required"
  else if c.server.port ≤ 0 || 65535 < c.server.port then some "invalid server port"
  else none

end config

namespace token

/-- TokenResponse, embedded from the source: the issuer's JSON body. -/
structure TokenResponse where
  accessToken : String
  expiresIn : Int
  expiresAt : Int
  errCode : Int
  errMsg : String
deriving DecidableEq

/-- TokenResponse.IsValid from the source: errcode 0 and a non-empty
access_token is the only success condition. -/
def TokenResponse.IsValid (r : TokenResponse) : Bool :=
  r.errCode == 0 && r.accessToken != ""

/-- The mutable fields of the token Server guarded by its mutex:
token, expiresAt, refreshAt and the metric counters. -/
structure ServerState where
  token : String
  expiresAt : Int
  refreshAt : Int
  refreshCount : Int
  failureCount : Int
  lastRefreshTime : Int
deriving DecidableEq

/-- isValid from the source: the token string is non-empty and the
current time is strictly before refreshAt. -/
def isValid (s : ServerState) (now : Int) : Bool :=
  s.token != "" && decide (now < s.refreshAt)

/-- The needs-refresh test of the proactive background loop in the
source, which is the negation of isValid. -/
def needsRefresh (s : ServerState) (now : Int) : Bool :=
  !(isValid s now)

/-- The possible outcomes of one interaction with the issuer endpoint,
one constructor per fallible stage of doRefresh in the source: request
construction, the HTTP call, reading the body, JSON decoding, and a
decoded response (whose errcode may still be non-zero). -/
inductive IssuerOutcome where
  | reqError
  | transportError
  | readError
  | parseError
  | response (r : TokenResponse)
deriving DecidableEq

/-- The error values doRefresh can return, one per failure stage. -/
inductive RefreshErr where
  | requestFailed
  | apiCallFailed
  | readFailed
  | parseFailed
  | apiError (errCode : Int) (errMsg : String)
deriving DecidableEq

/-- recordFailure from the source: increment the failure counter. -/
def recordFailure (s : ServerState) : ServerState :=
  { s with failureCount := s.failureCount + 1 }

/-- doRefresh, embedded from the source.  Every failure stage calls
recordFailure and returns an error; on a valid response the new expiry
is now plus expires_in, refreshAt is the expiry minus the configured
cache duration, the token is replaced, and the refresh counter and last
refresh time are updated.  The returned string is the fresh token. -/
def doRefresh (cfg : config.AccessTokenConfig) (s : ServerState)
    (o : IssuerOutcome) (now : Int) : ServerState × Except RefreshErr String :=
  match o with
  | .reqError => (recordFailure s, .error .requestFailed)
  | .transportError => (recordFailure s, .error .apiCallFailed)
  | .readError => (recordFailure s, .error .readFailed)
  | .parseError => (recordFailure s, .error .parseFailed)
  | .response r =>
    if !r.IsValid then
      (recordFailure s, .error (.apiError r.errCode r.errMsg))
    else
      let expAt := now + r.expiresIn
      let s1 := { s with token := r.accessToken, expiresAt := expAt,
                         refreshAt := expAt - cfg.cacheDuration }
      ({ s1 with refreshCount := s1.refreshCount + 1, lastRefreshTime := now },
       .ok s1.token)

/-- GetToken on the uncontended path, embedded from the source: the
fast path returns the stored token when isValid holds; otherwise the
call reaches refreshTokenWithContext, finds no refresh in flight,
becomes the leader and runs doRefresh.  (The contended path is modelled
by the small-step machine below.) -/
def GetToken (cfg : config.AccessTokenConfig) (s : ServerState) (now : Int)
    (o : IssuerOutcome) : ServerState × Except RefreshErr String :=
  if isValid s now then (s, .ok s.token) else doRefresh cfg s o now

/-- The record saveToCache writes: the marshalled token fields plus the
lifetime passed to the cache Set call. -/
structure CacheEntry where
  accessToken : String
  expiresIn : Int
  expiresAt : Int
  lifetime : Int
deriving DecidableEq

/-- saveToCache from the source: the cache lifetime is the time until
expiry minus a five-minute margin, clamped up to five minutes when that
difference is not positive. -/
def saveToCache (s : ServerState) (now : Int) : CacheEntry :=
  let d := (s.expiresAt - now) - 300
  { accessToken := s.token, expiresIn := s.expiresAt - now,
    expiresAt := s.expiresAt, lifetime := if d ≤ 0 then 300 else d }

/-- loadFromCache from the source, applied to a successfully decoded
cached record: the token and expiry are taken from the record and
refreshAt is recomputed as expiry minus the configured cache
duration. -/
def loadFromCache (cfg : config.AccessTokenConfig) (r : TokenResponse)
    (s : ServerState) : ServerState :=
  { s with token := r.accessToken, expiresAt := r.expiresAt,
           refreshAt := r.expiresAt - cfg.cacheDuration }

/-- The helper min of the source file (two ints). -/
def min (a b : Int) : Int :=
  if a < b then a else b

/-- Go string slicing s[:n] as a checked operation: defined exactly when
the index is within bounds, and out of range means a run-time panic in
the source language. -/
def goStringSlice (s : String) (n : Int) : Option String :=
  if 0 ≤ n && n ≤ (s.length : Int) then some (s.take n.toNat) else none

/-- TokenServerStats from the source. -/
structure TokenServerStats where
  token : String
  expiresAt : Int
  refreshAt : Int
  refreshCount : Int
  failureCount : Int
  lastRefreshTime : Int
  isValid : Bool
deriving DecidableEq

/-- GetStats from the source: the token field is the slice of the first
min 10 (length) bytes of the stored token followed by three dots; the
other fields are copied, and isValid is evaluated at the current
time. -/
def GetStats (s : ServerState) (now : Int) : Option TokenServerStats :=
  match goStringSlice s.token (min 10 (s.token.length : Int)) with
  | none => none
  | some p =>
    some { token := p ++ "...", expiresAt := s.expiresAt, refreshAt := s.refreshAt,
           refreshCount := s.refreshCount, failureCount := s.failureCount,
           lastRefreshTime := s.lastRefreshTime, isValid := isValid s now }

deriving instance DecidableEq for Except

/-- Program counter of one goroutine executing GetToken through
refreshTokenWithContext.  start is the fast-path validity check under
the read lock; acquire holds the condition lock and tests the
refreshing flag; inRefresh is the leader performing doRefresh; release
clears the flag and broadcasts; waiting is a follower parked in
cond.Wait; awake is a woken follower that has re-acquired the lock and
is about to re-test; done carries the call's return value. -/
inductive PC where
  | start
  | acquire
  | inRefresh
  | release (res : Except RefreshErr String)
  | waiting
  | awake
  | done (res : Except RefreshErr String)
deriving DecidableEq

/-- Whole-system state: the shared server fields, the refreshing flag,
the number of issuer invocations so far, and one program counter per
goroutine. -/
structure Sys where
  store : ServerState
  refreshing : Bool
  issuerCalls : Nat
  threads : List PC
deriving DecidableEq

/-- Broadcast moves every parked follower to awake. -/
def wake (p : PC) : PC :=
  match p with
  | .waiting => .awake
  | q => q

/-- One atomic step of a single goroutine, from the source's lock
regions: each step is one critical section (or the doRefresh body) of
GetToken / refreshTokenWithContext.  The issuer's reply to the n-th
invocation is issue n. -/
def stepThread (cfg : config.AccessTokenConfig) (issue : Nat → IssuerOutcome)
    (now : Int) (σ : Sys) (p : PC) : Sys × PC :=
  match p with
  | .start =>
    if isValid σ.store now then (σ, .done (.ok σ.store.token))
    else (σ, .acquire)
  | .acquire =>
    if σ.refreshing then (σ, .waiting)
    else ({ σ with refreshing := true }, .inRefresh)
  | .inRefresh =>
    let res := doRefresh cfg σ.store (issue σ.issuerCalls) now
    ({ σ with store := res.1, issuerCalls := σ.issuerCalls + 1 }, .release res.2)
  | .release r =>
    ({ σ with refreshing := false, threads := σ.threads.map wake }, .done r)
  | .waiting => (σ, .waiting)
  | .awake =>
    if isValid σ.store now then (σ, .done (.ok σ.store.token))
    else if σ.refreshing then (σ, .waiting)
    else ({ σ with refreshing := true }, .inRefresh)
  | .done r => (σ, .done r)

/-- Scheduler step: run one atomic step of the goroutine named by tid
(no step if the id is out of range). -/
def step (cfg : config.AccessTokenConfig) (issue : Nat → IssuerOutcome)
    (now : Int) (σ : Sys) (tid : Nat) : Sys :=
  match σ.threads.get? tid with
  | none => σ
  | some p =>
    let sp := stepThread cfg issue now σ p
    { sp.1 with threads := sp.1.threads.set tid sp.2 }

/-- Run a schedule: a list of goroutine ids, executed left to right. -/
def run (cfg : config.AccessTokenConfig) (issue : Nat → IssuerOutcome)
    (now : Int) (σ : Sys) (sched : List Nat) : Sys :=
  sched.foldl (step cfg issue now) σ

/-- A token server state with no credential, as at process start. -/
def emptyState : ServerState :=
  { token := "", expiresAt := 0, refreshAt := 0,
    refreshCount := 0, failureCount := 0, lastRefreshTime := 0 }

/-- The AccessToken configuration with a 300-second cache duration used
by the concrete scenarios. -/
def cfg300 : config.AccessTokenConfig :=
  { cacheDuration := 300, refreshInterval := 3600,
    enableProactive := true, enableReactive := true, useStableAPI := true }

/-- An issuer that answers its n-th invocation with a distinct fresh
token of time-to-live 7200 seconds. -/
def issueSeq (n : Nat) : IssuerOutcome :=
  .response { accessToken := "tok" ++ toString n, expiresIn := 7200,
              expiresAt := 0, errCode := 0, errMsg := "" }

/-- Validity as the specification document words it (a credential
exists and now is strictly before expiresAt); kept only to compare with
the source's isValid. -/
def isValidSpec (s : ServerState) (now : Int) : Bool :=
  s.token != "" && decide (now < s.expiresAt)

end token

/-- C3 counterexample: at the concrete state (token "t", expiresAt 20,
refreshAt 10) and now = 15, a credential exists and now is strictly
before expiresAt, yet the source's validity check returns false — the
claimed characterization through expiresAt is wrong. -/
theorem isValid_spec_mismatch_cex :
    token.isValid ⟨"t", 20, 10, 0, 0, 0⟩ 15 = false ∧
    token.isValidSpec ⟨"t", 20, 10, 0, 0, 0⟩ 15 = true := by
  decide

/-- C3 (amended): the validity check returns true if and only if the
token is non-empty and now is strictly before refreshAt (not
expiresAt). -/
theorem isValid_characterization :
    ∀ (s : token.ServerState) (now : Int),
      token.isValid s now = true ↔ (s.token ≠ "" ∧ now < s.refreshAt) := by
  intro s now
  simp [token.isValid]

/-- C4: a successful refresh at time T with expires_in 7200 and a
configured cache duration of 300 stores expiresAt = T + 7200 and
refreshAt = T + 6900, and the needs-refresh test is false strictly
before T + 6900 and true from T + 6900 on. -/
theorem refresh_timing_arithmetic (cfg : config.AccessTokenConfig)
    (s : token.ServerState) (tok : String) (T t : Int)
    (hc : cfg.cacheDuration = 300) (ht : tok ≠ "") :
    (token.doRefresh cfg s (.response ⟨tok, 7200, 0, 0, ""⟩) T).1.expiresAt = T + 7200 ∧
    (token.doRefresh cfg s (.response ⟨tok, 7200, 0, 0, ""⟩) T).1.refreshAt = T + 6900 ∧
    (t < T + 6900 →
      token.needsRefresh (token.doRefresh cfg s (.response ⟨tok, 7200, 0, 0, ""⟩) T).1 t = false) ∧
    (T + 6900 ≤ t →
      token.needsRefresh (token.doRefresh cfg s (.response ⟨tok, 7200, 0, 0, ""⟩) T).1 t = true) := by
  have hb : (tok != "") = true := by simpa using ht
  simp [token.doRefresh, token.TokenResponse.IsValid, hb, hc,
        token.needsRefresh, token.isValid]
  refine ⟨by omega, ?_, ?_⟩ <;> intro h <;> omega

/-- C4 witness at T = 0, t = 0 with the concrete configuration. -/
theorem refresh_timing_arithmetic_witness :
    token.cfg300.cacheDuration = 300 ∧ ("tok0" : String) ≠ "" ∧
    ((token.doRefresh token.cfg300 token.emptyState (.response ⟨"tok0", 7200, 0, 0, ""⟩) 0).1.expiresAt = 0 + 7200 ∧
     (token.doRefresh token.cfg300 token.emptyState (.response ⟨"tok0", 7200, 0, 0, ""⟩) 0).1.refreshAt = 0 + 6900 ∧
     ((0 : Int) < 0 + 6900 →
       token.needsRefresh (token.doRefresh token.cfg300 token.emptyState (.response ⟨"tok0", 7200, 0, 0, ""⟩) 0).1 0 = false) ∧
     ((0 : Int) + 6900 ≤ 0 →
       token.needsRefresh (token.doRefresh token.cfg300 token.emptyState (.response ⟨"tok0", 7200, 0, 0, ""⟩) 0).1 0 = true)) :=
  ⟨rfl, by decide,
   refresh_timing_arithmetic token.cfg300 token.emptyState "tok0" 0 0 rfl (by decide)⟩

/-- C5: whenever doRefresh returns an error — request construction,
transport, body read, parse, or a non-zero issuer errcode — the stored
token, expiresAt and refreshAt are exactly what they were before the
attempt. -/
theorem failed_refresh_atomic (cfg : config.AccessTokenConfig)
    (s : token.ServerState) (o : token.IssuerOutcome) (now : Int)
    (e : token.RefreshErr)
    (h : (token.doRefresh cfg s o now).2 = .error e) :
    (token.doRefresh cfg s o now).1.token = s.token ∧
    (token.doRefresh cfg s o now).1.expiresAt = s.expiresAt ∧
    (token.doRefresh cfg s o now).1.refreshAt = s.refreshAt := by
  cases o with
  | response r =>
    by_cases hv : r.IsValid = true
    · simp [token.doRefresh, hv] at h
    · simp [token.doRefresh, hv, token.recordFailure]
  | reqError => simp [token.doRefresh, token.recordFailure]
  | transportError => simp [token.doRefresh, token.recordFailure]
  | readError => simp [token.doRefresh, token.recordFailure]
  | parseError => simp [token.doRefresh, token.recordFailure]

/-- C5 witness at the transport-failure outcome on a concrete state. -/
theorem failed_refresh_atomic_witness :
    (token.doRefresh token.cfg300 ⟨"old", 7200, 6900, 1, 0, 0⟩ .transportError 7000).2
      = .error .apiCallFailed ∧
    ((token.doRefresh token.cfg300 ⟨"old", 7200, 6900, 1, 0, 0⟩ .transportError 7000).1.token = "old" ∧
     (token.doRefresh token.cfg300 ⟨"old", 7200, 6900, 1, 0, 0⟩ .transportError 7000).1.expiresAt = 7200 ∧
     (token.doRefresh token.cfg300 ⟨"old", 7200, 6900, 1, 0, 0⟩ .transportError 7000).1.refreshAt = 6900) :=
  ⟨by decide,
   failed_refresh_atomic token.cfg300 ⟨"old", 7200, 6900, 1, 0, 0⟩ .transportError 7000
     .apiCallFailed (by decide)⟩

/-- C2 counterexample: with the stale credential (token "old",
expiresAt 7200, refreshAt 6900) at now = 7000 and an issuer reply with
errcode 40125, GetToken propagates the issuer error instead of
returning the old token as the claim states. -/
theorem staleToken_not_served_cex :
    (token.GetToken token.cfg300 ⟨"old", 7200, 6900, 1, 0, 0⟩ 7000
        (.response ⟨"", 0, 0, 40125, "invalid credential"⟩)).2
      = .error (.apiError 40125 "invalid credential") ∧
    (token.GetToken token.cfg300 ⟨"old", 7200, 6900, 1, 0, 0⟩ 7000
        (.response ⟨"", 0, 0, 40125, "invalid credential"⟩)).2
      ≠ .ok "old" := by
  decide

/-- C2 (amended): with a cached credential past refreshAt but before
expiresAt, a failed issuer call with non-zero errcode leaves token,
expiresAt and refreshAt unchanged and increments the failure counter by
one, but the GetToken call returns the issuer error rather than the
stale token (validity is tested against refreshAt and there is no
stale-serving fallback). -/
theorem stale_refresh_failure_behavior (cfg : config.AccessTokenConfig)
    (s : token.ServerState) (now : Int) (r : token.TokenResponse)
    (h1 : s.token ≠ "") (h2 : s.refreshAt ≤ now) (h3 : now < s.expiresAt)
    (h4 : r.errCode ≠ 0) :
    (token.GetToken cfg s now (.response r)).1.token = s.token ∧
    (token.GetToken cfg s now (.response r)).1.expiresAt = s.expiresAt ∧
    (token.GetToken cfg s now (.response r)).1.refreshAt = s.refreshAt ∧
    (token.GetToken cfg s now (.response r)).1.failureCount = s.failureCount + 1 ∧
    (token.GetToken cfg s now (.response r)).2 = .error (.apiError r.errCode r.errMsg) := by
  have hvalid : token.isValid s now = false := by
    simp [token.isValid, show ¬ (now < s.refreshAt) by omega]
  have hresp : r.IsValid = false := by
    simp [token.TokenResponse.IsValid, h4]
  simp [token.GetToken, hvalid, token.doRefresh, hresp, token.recordFailure]

/-- C2 amended-claim witness at the concrete stale state and issuer
rejection 40125. -/
theorem stale_refresh_failure_behavior_witness :
    ("old" : String) ≠ "" ∧ (6900 : Int) ≤ 7000 ∧ (7000 : Int) < 7200 ∧
    (40125 : Int) ≠ 0 ∧
    ((token.GetToken token.cfg300 ⟨"old", 7200, 6900, 1, 0, 0⟩ 7000
        (.response ⟨"", 0, 0, 40125, "invalid credential"⟩)).1.failureCount = 0 + 1 ∧
     (token.GetToken token.cfg300 ⟨"old", 7200, 6900, 1, 0, 0⟩ 7000
        (.response ⟨"", 0, 0, 40125, "invalid credential"⟩)).2
       = .error (.apiError 40125 "invalid credential")) :=
  ⟨by decide, by decide, by decide, by decide,
   (stale_refresh_failure_behavior token.cfg300 ⟨"old", 7200, 6900, 1, 0, 0⟩ 7000
      ⟨"", 0, 0, 40125, "invalid credential"⟩ (by decide) (by decide) (by decide)
      (by decide)).2.2.2⟩

/-- C7 counterexample: a credential whose hard expiry is 60 seconds
away is persisted with a 300-second lifetime — the persisted entry
outlives the credential's hard expiry, and in particular does not
expire by hard expiry minus the 300-second margin. -/
theorem cache_margin_cex :
    (token.saveToCache ⟨"tok", 60, 0, 0, 0, 0⟩ 0).lifetime = 300 ∧
    ¬ ((0 : Int) + (token.saveToCache ⟨"tok", 60, 0, 0, 0, 0⟩ 0).lifetime ≤ 60 - 300) ∧
    (60 : Int) < 0 + (token.saveToCache ⟨"tok", 60, 0, 0, 0, 0⟩ 0).lifetime := by
  decide

/-- C7 (amended): when the credential's remaining time to expiry
exceeds the 300-second margin, the persisted lifetime is exactly the
remaining time minus 300, so the entry expires exactly at hard expiry
minus the margin; when the remaining time is at most 300 the lifetime
is clamped to 300 seconds, which can outlive the credential. -/
theorem cache_margin_amended :
    ∀ (s : token.ServerState) (now : Int),
      (300 < s.expiresAt - now →
        now + (token.saveToCache s now).lifetime = s.expiresAt - 300) ∧
      (s.expiresAt - now ≤ 300 →
        (token.saveToCache s now).lifetime = 300) := by
  intro s now
  constructor <;> intro h <;> simp [token.saveToCache] <;> omega

/-- C7 amended-claim witness: remaining time 7200 at now = 0. -/
theorem cache_margin_amended_witness :
    (300 : Int) < 7200 - 0 ∧
    (0 : Int) + (token.saveToCache ⟨"tok", 7200, 6900, 1, 0, 0⟩ 0).lifetime = 7200 - 300 :=
  ⟨by decide, (cache_margin_amended ⟨"tok", 7200, 6900, 1, 0, 0⟩ 0).1 (by decide)⟩

/-- C8 counterexample: a configuration whose cache duration 8000
exceeds the issuer time-to-live of 7200 passes Validate with no error —
the refresh-buffer-versus-TTL condition is not detected at startup. -/
theorem validate_accepts_large_buffer_cex :
    config.Config.Validate
        ⟨⟨"", 8080, 10, 10, 1048576, "development"⟩,
         ⟨"wx123", "secret", "tok", "", ""⟩,
         ⟨8000, 3600, true, true, true⟩⟩ = none ∧
    (7200 : Int) ≤
      (⟨⟨"", 8080, 10, 10, 1048576, "development"⟩,
        ⟨"wx123", "secret", "tok", "", ""⟩,
        ⟨8000, 3600, true, true, true⟩⟩ : config.Config).accessToken.cacheDuration := by
  decide

/-- C8 (amended): Validate accepts a configuration exactly when app_id,
app_secret and token are non-empty and the port lies in 1..65535; the
access-token cache duration is never consulted, so a refresh buffer at
or above the TTL is accepted at startup. -/
theorem validate_checks_iff :
    ∀ c : config.Config,
      c.Validate = none ↔
        (c.weChat.appID ≠ "" ∧ c.weChat.appSecret ≠ "" ∧ c.weChat.token ≠ "" ∧
         0 < c.server.port ∧ c.server.port ≤ 65535) := by
  intro c
  simp only [config.Config.Validate]
  split_ifs with h1 h2 h3 h4 <;>
    simp_all [beq_iff_eq] <;> omega

/-- C9 counterexample: with a (validation-accepted) configuration whose
cache duration is -1, a successful refresh stores refreshAt strictly
greater than expiresAt, violating the claimed invariant. -/
theorem refreshAt_invariant_cex :
    (token.doRefresh ⟨-1, 3600, true, true, true⟩ token.emptyState
        (.response ⟨"tok", 7200, 0, 0, ""⟩) 0).2 = .ok "tok" ∧
    ¬ ((token.doRefresh ⟨-1, 3600, true, true, true⟩ token.emptyState
        (.response ⟨"tok", 7200, 0, 0, ""⟩) 0).1.refreshAt ≤
       (token.doRefresh ⟨-1, 3600, true, true, true⟩ token.emptyState
        (.response ⟨"tok", 7200, 0, 0, ""⟩) 0).1.expiresAt) := by
  decide

/-- C9 (amended): provided the configured cache duration is
nonnegative, every credential produced by a successful doRefresh and
every credential installed by loadFromCache satisfies refreshAt less
than or equal to expiresAt. -/
theorem refreshAt_le_expiresAt_amended (cfg : config.AccessTokenConfig)
    (hc : 0 ≤ cfg.cacheDuration) :
    (∀ (s s' : token.ServerState) (o : token.IssuerOutcome) (now : Int) (v : String),
      token.doRefresh cfg s o now = (s', .ok v) → s'.refreshAt ≤ s'.expiresAt) ∧
    (∀ (r : token.TokenResponse) (s : token.ServerState),
      (token.loadFromCache cfg r s).refreshAt ≤ (token.loadFromCache cfg r s).expiresAt) := by
  constructor
  · intro s s' o now v h
    cases o with
    | response r =>
      by_cases hv : r.IsValid = true
      · simp [token.doRefresh, hv, Prod.ext_iff] at h
        obtain ⟨hs, -⟩ := h
        subst hs
        simp
        omega
      · simp [token.doRefresh, hv, Prod.ext_iff] at h
    | reqError => simp [token.doRefresh, Prod.ext_iff] at h
    | transportError => simp [token.doRefresh, Prod.ext_iff] at h
    | readError => simp [token.doRefresh, Prod.ext_iff] at h
    | parseError => simp [token.doRefresh, Prod.ext_iff] at h
  · intro r s
    simp [token.loadFromCache]
    omega

/-- C9 amended-claim witness: the concrete configuration with buffer
300 and a concrete cached record. -/
theorem refreshAt_le_expiresAt_amended_witness :
    (0 : Int) ≤ token.cfg300.cacheDuration ∧
    (token.loadFromCache token.cfg300 ⟨"tok", 7200, 7200, 0, ""⟩ token.emptyState).refreshAt ≤
      (token.loadFromCache token.cfg300 ⟨"tok", 7200, 7200, 0, ""⟩ token.emptyState).expiresAt :=
  ⟨by decide,
   (refreshAt_le_expiresAt_amended token.cfg300 (by decide)).2
     ⟨"tok", 7200, 7200, 0, ""⟩ token.emptyState⟩

/-- C10: GetStats is total — the slice index min 10 (length) is always
in bounds, so the Go slice never panics — and the preview it returns is
the first min 10 (length) characters of the stored token followed by
three dots, never more than 10 characters of the credential. -/
theorem getStats_total_preview :
    ∀ (s : token.ServerState) (now : Int),
      token.GetStats s now =
        some ⟨s.token.take (token.min 10 (s.token.length : Int)).toNat ++ "...",
              s.expiresAt, s.refreshAt, s.refreshCount, s.failureCount,
              s.lastRefreshTime, token.isValid s now⟩ ∧
      (token.min 10 (s.token.length : Int)).toNat ≤ 10 := by
  intro s now
  have hmin : (0 : Int) ≤ token.min 10 (s.token.length : Int) ∧
      token.min 10 (s.token.length : Int) ≤ (s.token.length : Int) ∧
      (token.min 10 (s.token.length : Int)).toNat ≤ 10 := by
    simp only [token.min]
    split <;> omega
  obtain ⟨hm0, hm1, hm2⟩ := hmin
  refine ⟨?_, hm2⟩
  simp [token.GetStats, token.goStringSlice, hm0, hm1]

/-- C1: evaluation of the machine at the failing interleaving.  Two
GetToken calls start from the empty store and both fail the fast-path
validity check; the first becomes leader, refreshes and finishes; only
then does the second reach the coordinator lock, where it finds the
refreshing flag clear, becomes a second leader without re-checking
validity, and invokes the issuer again.  The issuer is invoked twice
and the two calls return different token values, contradicting
single-flight as claimed. -/
theorem duplicate_issuer_invocation_trace :
    (token.run token.cfg300 token.issueSeq 0
        ⟨token.emptyState, false, 0, [token.PC.start, token.PC.start]⟩
        [0, 1, 0, 0, 0, 1, 1, 1]).issuerCalls = 2 ∧
    (token.run token.cfg300 token.issueSeq 0
        ⟨token.emptyState, false, 0, [token.PC.start, token.PC.start]⟩
        [0, 1, 0, 0, 0, 1, 1, 1]).threads
      = [token.PC.done (.ok "tok0"), token.PC.done (.ok "tok1")] := by
  decide

/-- C6: failure is not sticky.  First, from any state with no
credential and no refresh in flight, a single GetToken call run to
completion performs exactly one fresh issuer invocation and returns
exactly what doRefresh produces for that fresh outcome — no remembered
error exists anywhere in the state.  Second, a follower that wakes from
waiting, finds the credential still invalid and no refresh in flight,
itself becomes the new leader (the refreshing flag is set and it moves
to the refresh step). -/
theorem no_sticky_failure :
    (∀ (cfg : config.AccessTokenConfig) (issue : Nat → token.IssuerOutcome)
       (now : Int) (s : token.ServerState) (n : Nat),
      s.token = "" →
      (token.run cfg issue now ⟨s, false, n, [token.PC.start]⟩ [0, 0, 0, 0]).issuerCalls = n + 1 ∧
      (token.run cfg issue now ⟨s, false, n, [token.PC.start]⟩ [0, 0, 0, 0]).threads
        = [token.PC.done (token.doRefresh cfg s (issue n) now).2]) ∧
    (∀ (cfg : config.AccessTokenConfig) (issue : Nat → token.IssuerOutcome)
       (now : Int) (σ : token.Sys) (tid : Nat),
      σ.threads[tid]? = some token.PC.awake →
      token.isValid σ.store now = false →
      σ.refreshing = false →
      token.step cfg issue now σ tid
        = { σ with refreshing := true, threads := σ.threads.set tid token.PC.inRefresh }) := by
  constructor
  · intro cfg issue now s n h
    have hv : token.isValid s now = false := by simp [token.isValid, h]
    simp [token.run, token.step, token.stepThread, hv, token.wake]
  · intro cfg issue now σ tid h1 h2 h3
    simp [token.step, h1, token.stepThread, h2, h3]

/-- C6 witness: the empty state after one failed attempt (failure
counter already 1, issuer call counter 1), with an issuer that now
succeeds; the next GetToken run performs the second issuer invocation
and finishes with its fresh result. -/
theorem no_sticky_failure_witness :
    (token.emptyState.token = "") ∧
    ((token.run token.cfg300 token.issueSeq 0
        ⟨token.emptyState, false, 1, [token.PC.start]⟩ [0, 0, 0, 0]).issuerCalls = 1 + 1 ∧
     (token.run token.cfg300 token.issueSeq 0
        ⟨token.emptyState, false, 1, [token.PC.start]⟩ [0, 0, 0, 0]).threads
       = [token.PC.done (token.doRefresh token.cfg300 token.emptyState (token.issueSeq 1) 0).2]) :=
  ⟨rfl, no_sticky_failure.1 token.cfg300 token.issueSeq 0 token.emptyState 1 rfl⟩
